import Mathlib

/-!
Verification of the mental-health assistant server (`src/app.py`).

The file shallowly embeds the pure post-processing logic of the server:
the language classifier `detect_language_from_text`, the crisis detector
`detect_crisis_keywords`, the retry/fallback loop of `get_ai_response`,
the language post-processing of `transcribe_audio`, the per-unit event
sequence of the websocket endpoint, the temporary-file lifecycle of an
audio unit, and the language map of the `/tts` endpoint.  External calls
(the Gemini client) are modelled as explicit function parameters giving
the outcome of each upstream call.  Python strings are modelled as Lean
`String`; Python `str.lower` as an ASCII lower-casing map (it agrees with
Python on every character appearing in the configured keyword tables,
which are ASCII or caseless Indic scripts).
-/

namespace App

/-- Model of Python `str.lower()` (ASCII case folding; the configured
keywords and messages contain no non-ASCII cased characters). -/
def lowerStr (s : String) : String :=
  String.mk (s.data.map Char.toLower)

/-- Helper for substring search on character lists: does the needle occur
as a contiguous sublist of the haystack? -/
def strContainsAux (n : List Char) : List Char → Bool
  | [] => n.isEmpty
  | c :: t => n.isPrefixOf (c :: t) || strContainsAux n t

/-- Model of the Python expression `needle in haystack` on strings
(contiguous substring test). -/
def pyIn (needle haystack : String) : Bool :=
  strContainsAux needle.data haystack.data

/-- Helper for `pyWords`: walk the character list accumulating the
current word (reversed); whitespace ends a word, runs of whitespace
produce no empty words. -/
def splitWordsAux : List Char → List Char → List String
  | [], acc => if acc.isEmpty then [] else [String.mk acc.reverse]
  | c :: t, acc =>
      if c.isWhitespace then
        if acc.isEmpty then splitWordsAux t []
        else String.mk acc.reverse :: splitWordsAux t []
      else splitWordsAux t (c :: acc)

/-- Model of Python `s.split()`: split on whitespace runs, dropping
empty pieces. -/
def pyWords (s : String) : List String :=
  splitWordsAux s.data []

/-- Does the string contain a character whose code point lies in the
inclusive range `[lo, hi]`?  Models `any(lo <= char <= hi for char in text)`
from `detect_language_from_text` / `transcribe_audio`. -/
def hasRange (lo hi : Nat) (s : String) : Bool :=
  s.data.any (fun c => decide (lo ≤ c.toNat) && decide (c.toNat ≤ hi))

/-- Embedding of `detect_language_from_text` (src/app.py:170-203): scan
for script presence by Unicode block, first match wins, in the order
Devanagari, Bengali, Tamil, Telugu, Gujarati, Kannada, Malayalam,
Gurmukhi; empty text and no-match map to "en". -/
def detect_language_from_text (text : String) : String :=
  if text = "" then "en"
  else if hasRange 0x900 0x97F text then "hi"
  else if hasRange 0x980 0x9FF text then "bn"
  else if hasRange 0xB80 0xBFF text then "ta"
  else if hasRange 0xC00 0xC7F text then "te"
  else if hasRange 0xA80 0xAFF text then "gu"
  else if hasRange 0xC80 0xCFF text then "kn"
  else if hasRange 0xD00 0xD7F text then "ml"
  else if hasRange 0xA00 0xA7F text then "pa"
  else "en"

/-- The `crisis_keywords` table of `detect_crisis_keywords`
(src/app.py:208-222), in Python dict insertion order. -/
def crisis_keywords : List (String × List String) :=
  [("en", ["suicide", "kill myself", "end my life", "want to die", "self harm",
           "hurt myself", "no reason to live", "better off dead", "end it all",
           "can\x27t go on", "no hope", "worthless"]),
   ("hi", ["आत्महत्या", "मरना चाहता", "मरना चाहती", "जान देना", "खुद को नुकसान",
           "मौत चाहता", "जीना नहीं चाहता", "खत्म करना चाहता", "कोई उम्मीद नहीं"]),
   ("bn", ["আত্মহত্যা", "মরতে চাই", "জীবন শেষ", "নিজেকে আঘাত", "বাঁচতে চাই না",
           "মরে যেতে চাই", "কোন আশা নেই"]),
   ("ta", ["தற்கொலை", "சாக விரும்புகிறேன்", "வாழ விரும்பவில்லை"]),
   ("te", ["ఆత్మహత్య", "చావాలనుకుంటున్నాను", "బ్రతకాలని లేదు"]),
   ("gu", ["આત્મહત્યા", "મરવું છે", "જીવવું નથી"]),
   ("kn", ["ಆತ್ಮಹತ್ಯೆ", "ಸಾಯಬೇಕು", "ಬದುಕು ಬೇಡ"]),
   ("ml", ["ആത്മഹത്യ", "മരിക്കണം", "ജീവിക്കണ്ട"]),
   ("pa", ["ਖੁਦਕੁਸ਼ੀ", "ਮਰਨਾ ਚਾਹੁੰਦਾ", "ਜੀਣਾ ਨਹੀਂ ਚਾਹੁੰਦਾ"])]

/-- Does `text` contain (case-insensitively) some keyword of the entry
`p` of the keyword table?  Mirrors the inner loop
`if keyword.lower() in text_lower` of `detect_crisis_keywords`. -/
def langHasKw (text : String) (p : String × List String) : Bool :=
  p.2.any (fun kw => pyIn (lowerStr kw) (lowerStr text))

/-- The double loop of `detect_crisis_keywords` (src/app.py:227-230):
iterate over languages in table order, over keywords in list order,
return the language of the first case-insensitive substring hit. -/
def crisisScan (textLower : String) : List (String × List String) → Option String
  | [] => none
  | (lang, kws) :: rest =>
      if kws.any (fun kw => pyIn (lowerStr kw) textLower) then some lang
      else crisisScan textLower rest

/-- Embedding of `detect_crisis_keywords` (src/app.py:206-232): on the
first keyword hit return `(true, thatLanguage)`; if nothing matches
return `(false, detect_language_from_text text)`. -/
def detect_crisis_keywords (text : String) : Bool × String :=
  let textLower := lowerStr text
  match crisisScan textLower crisis_keywords with
  | some lang => (true, lang)
  | none => (false, detect_language_from_text text)

lemma crisisScan_eq_findMap (text : String) (l : List (String × List String)) :
    crisisScan (lowerStr text) l = (l.find? (fun p => langHasKw text p)).map Prod.fst := by
  induction l with
  | nil => rfl
  | cons p rest ih =>
      obtain ⟨lang, kws⟩ := p
      by_cases h : kws.any (fun kw => pyIn (lowerStr kw) (lowerStr text)) = true
      · simp [crisisScan, List.find?, langHasKw, h]
      · simp only [Bool.not_eq_true] at h
        simp [crisisScan, List.find?, langHasKw, h, ih]

/-- C1: if a text contains (as a case-insensitive substring) a configured
crisis keyword of some supported language, `detect_crisis_keywords`
returns the flag `true` paired with a language whose configured keyword
the text contains; the language classifier is not consulted on this
path. -/
theorem crisis_detect_flags_any_matching_keyword
    (text : String) (h : crisis_keywords.any (fun p => langHasKw text p) = true) :
    (detect_crisis_keywords text).1 = true ∧
      ∃ q ∈ crisis_keywords,
        (detect_crisis_keywords text).2 = q.1 ∧ langHasKw text q = true := by
  obtain ⟨p, hp, hkw⟩ := List.any_eq_true.mp h
  have hsome : (crisis_keywords.find? (fun q => langHasKw text q)).isSome :=
    List.find?_isSome.mpr ⟨p, hp, hkw⟩
  obtain ⟨q, hq⟩ := Option.isSome_iff_exists.mp hsome
  have hqmem : q ∈ crisis_keywords := List.mem_of_find?_eq_some hq
  have hqprop : langHasKw text q = true := List.find?_some hq
  simp only [detect_crisis_keywords, crisisScan_eq_findMap, hq, Option.map_some]
  exact ⟨rfl, q, hqmem, rfl, hqprop⟩

/-- Witness for C1, on a text whose script the classifier would judge as
Hindi although the matching crisis keyword is the English one: the flag
is raised and the returned language has a matching keyword. -/
theorem crisis_detect_flags_any_matching_keyword_witness :
    detect_language_from_text "आपको suicide" = "hi" ∧
      ((detect_crisis_keywords "आपको suicide").1 = true ∧
        ∃ q ∈ crisis_keywords,
          (detect_crisis_keywords "आपको suicide").2 = q.1 ∧
            langHasKw "आपको suicide" q = true) :=
  ⟨by decide, crisis_detect_flags_any_matching_keyword "आपको suicide" (by decide)⟩

/-- C2: if a text contains no configured crisis keyword of any supported
language, `detect_crisis_keywords` returns `false` paired with exactly
the output of the language classifier `detect_language_from_text`. -/
theorem crisis_detect_no_keyword_uses_language_classifier
    (text : String)
    (h : crisis_keywords.all (fun p => !(langHasKw text p)) = true) :
    detect_crisis_keywords text = (false, detect_language_from_text text) := by
  have hnone : crisis_keywords.find? (fun p => langHasKw text p) = none := by
    refine List.find?_eq_none.mpr (fun p hp => ?_)
    have := List.all_eq_true.mp h p hp
    simp only [Bool.not_eq_true'] at this
    simp [this]
  simp [detect_crisis_keywords, crisisScan_eq_findMap, hnone]

/-- Witness for C2 at a keyword-free English text. -/
theorem crisis_detect_no_keyword_witness :
    detect_crisis_keywords "hello world" =
      (false, detect_language_from_text "hello world") :=
  crisis_detect_no_keyword_uses_language_classifier "hello world" (by decide)

/-- C7: `detect_language_from_text` is total and deterministic (it is a
pure Lean function), every output lies in the fixed nine-tag enumeration,
and the empty string maps to "en". -/
theorem detect_language_total_and_fixed_range (s : String) :
    detect_language_from_text s ∈
        (["en", "hi", "bn", "ta", "te", "gu", "kn", "ml", "pa"] : List String) ∧
      detect_language_from_text "" = "en" ∧
      detect_language_from_text s = detect_language_from_text s := by
  refine ⟨?_, rfl, rfl⟩
  unfold detect_language_from_text
  repeat' split
  all_goals simp

/-- C10: the crisis detector tests languages in the fixed table order
en, hi, bn, ta, te, gu, kn, ml, pa and returns the first language with a
matching keyword; in particular a text containing both an English and a
Hindi crisis phrase is assessed as `(true, "en")`. -/
theorem crisis_detect_enumeration_order :
    crisis_keywords.map Prod.fst =
        ["en", "hi", "bn", "ta", "te", "gu", "kn", "ml", "pa"] ∧
      (∀ text, detect_crisis_keywords text =
        match crisis_keywords.find? (fun p => langHasKw text p) with
        | some p => (true, p.1)
        | none => (false, detect_language_from_text text)) ∧
      detect_crisis_keywords "want to die मरना चाहता" = (true, "en") := by
  refine ⟨rfl, fun text => ?_, by decide⟩
  simp only [detect_crisis_keywords, crisisScan_eq_findMap]
  cases h : crisis_keywords.find? (fun p => langHasKw text p) <;> simp [h]

/-- The `fallback_messages` table of `get_ai_response`
(src/app.py:319-329), in Python dict insertion order. -/
def fallback_messages : List (String × String) :=
  [("hi", "मुझे अभी आपकी बात समझने में परेशानी हो रही है। कृपया फिर से कोशिश करें।"),
   ("bn", "আমি এখন আপনার কথা বুঝতে সমস্যা হচ্ছে। অনুগ্রহ করে আবার চেষ্টা করুন।"),
   ("ta", "நான் இப்போது உங்கள் செய்தியைப் புரிந்து கொள்வதில் சிக்கல் உள்ளது. மீண்டும் முயற்சிக்கவும்."),
   ("te", "నేను ఇప్పుడు మీ సందేశాన్ని అర్థం చేసుకోవడంలో సమస్య ఉంది. దయచేసి మళ్లీ ప్రయత్నించండి."),
   ("gu", "મને હમણાં તમારી વાત સમજવામાં સમસ્યા આવી રહી છે. કૃપા કરીને ફરી પ્રયાસ કરો."),
   ("kn", "ನಾನು ಈಗ ನಿಮ್ಮ ಸಂದೇಶವನ್ನು ಅರ್ಥಮಾಡಿಕೊಳ್ಳುವಲ್ಲಿ ಸಮಸ್ಯೆ ಎದುರಿಸುತ್ತಿದ್ದೇನೆ. ದಯವಿಟ್ಟು ಮತ್ತೆ ಪ್ರಯತ್ನಿಸಿ."),
   ("ml", "എനിക്ക് ഇപ്പോൾ നിങ്ങളുടെ സന്ദേശം മനസ്സിലാക്കുന്നതിൽ പ്രശ്നമുണ്ട്. ദയവായി വീണ്ടും ശ്രമിക്കുക."),
   ("pa", "ਮੈਨੂੰ ਹੁਣ ਤੁਹਾਡੀ ਗੱਲ ਸਮਝਣ ਵਿੱਚ ਮੁਸ਼ਕਲ ਆ ਰਹੀ ਹੈ। ਕਿਰਪਾ ਕਰਕੇ ਦੁਬਾਰਾ ਕੋਸ਼ਿਸ਼ ਕਰੋ।"),
   ("en", "I\x27m having trouble processing that right now. Please try again in a moment.")]

/-- Model of `fallback_messages.get(language, fallback_messages[en])`. -/
def fallbackFor (language : String) : String :=
  ((fallback_messages.find? (fun p => p.1 == language)).map Prod.snd).getD
    (((fallback_messages.find? (fun p => p.1 == "en")).map Prod.snd).getD "")

/-- The retry predicate of `get_ai_response` (src/app.py:307):
`"503" in error_msg or "overloaded" in error_msg.lower()`. -/
def retryNeeded (msg : String) : Bool :=
  pyIn "503" msg || pyIn "overloaded" (lowerStr msg)

/-- Markup stripping applied to a successful reply (src/app.py:301):
`.replace(42, ).replace(35, ).replace(96, )` removes every asterisk
(code point 42), hash (35) and backtick (96) character. -/
def cleanResp (s : String) : String :=
  String.mk (s.data.filter (fun c => c.toNat ≠ 42 && c.toNat ≠ 35 && c.toNat ≠ 96))

/-- Backoff before retry `attempt` (src/app.py:310):
`wait_time = (2 ** attempt) * 0.5` seconds. -/
def waitTime (attempt : Nat) : ℚ :=
  (2 ^ attempt : ℚ) * (1 / 2)

/-- The "auto" resolution at the top of `get_ai_response`
(src/app.py:255-257): the tag "auto" is replaced by the classifier
output on the prompt before anything else happens. -/
def effLang (prompt language : String) : String :=
  if language = "auto" then detect_language_from_text prompt else language

/-- The `for attempt in range(max_retries)` loop of `get_ai_response`
(src/app.py:298-316).  `upstream k` is the outcome of the
`generate_content` call made on loop iteration `k` (`Except.error msg`
models a raised exception with `str(e) = msg`).  Returns the successful
raw reply (`some`), or `none` when the loop ended in `break` or
exhaustion, together with the list of backoff sleeps performed and the
number of upstream calls made.  `fuel` is the number of remaining loop
iterations (`max_retries - attempt` at entry). -/
def geminiAttempts (upstream : Nat → Except String String) (maxRetries : Nat) :
    Nat → Nat → Option String × List ℚ × Nat
  | _, 0 => (none, [], 0)
  | attempt, fuel + 1 =>
      match upstream attempt with
      | Except.ok t => (some t, [], 1)
      | Except.error msg =>
          if retryNeeded msg && decide (attempt < maxRetries - 1) then
            let r := geminiAttempts upstream maxRetries (attempt + 1) fuel
            (r.1, waitTime attempt :: r.2.1, r.2.2 + 1)
          else (none, [], 1)

/-- Embedding of `get_ai_response` (src/app.py:238-330), restricted to
the observable retry/fallback behaviour: returns the reply text together
with the backoff sleeps performed and the number of upstream calls.
On a successful call the raw reply is returned with markup stripped; on
`break` or loop exhaustion the localized fallback sentence is returned
(English when the resolved tag has no entry); no exception escapes. -/
def get_ai_response (upstream : Nat → Except String String)
    (prompt language : String) : String × List ℚ × Nat :=
  let lang := effLang prompt language
  let r := geminiAttempts upstream 3 0 3
  match r.1 with
  | some t => (cleanResp t, r.2.1, r.2.2)
  | none => (fallbackFor lang, r.2.1, r.2.2)

lemma geminiAttempts_calls_le (upstream : Nat → Except String String)
    (maxRetries : Nat) : ∀ fuel attempt,
    (geminiAttempts upstream maxRetries attempt fuel).2.2 ≤ fuel := by
  intro fuel
  induction fuel with
  | zero => intro attempt; simp [geminiAttempts]
  | succ n ih =>
      intro attempt
      cases h : upstream attempt with
      | ok t => simp [geminiAttempts, h]
      | error msg =>
          by_cases hr : (retryNeeded msg && decide (attempt < maxRetries - 1)) = true
          · simpa [geminiAttempts, h, hr] using Nat.succ_le_succ (ih (attempt + 1))
          · simp [geminiAttempts, h, hr]

lemma geminiAttempts_step (upstream : Nat → Except String String) (a f : Nat) :
    geminiAttempts upstream 3 a (f + 1) =
      match upstream a with
      | Except.ok t => (some t, [], 1)
      | Except.error msg =>
          if retryNeeded msg && decide (a < 2) then
            let r := geminiAttempts upstream 3 (a + 1) f
            (r.1, waitTime a :: r.2.1, r.2.2 + 1)
          else (none, [], 1) := rfl

lemma get_ai_response_eq (upstream : Nat → Except String String)
    (prompt language : String) :
    get_ai_response upstream prompt language =
      match (geminiAttempts upstream 3 0 3).1 with
      | some t => (cleanResp t, (geminiAttempts upstream 3 0 3).2.1,
                   (geminiAttempts upstream 3 0 3).2.2)
      | none => (fallbackFor (effLang prompt language),
                 (geminiAttempts upstream 3 0 3).2.1,
                 (geminiAttempts upstream 3 0 3).2.2) := by
  unfold get_ai_response
  cases h : (geminiAttempts upstream 3 0 3).1 <;> simp [h]

lemma geminiAttempts_sleeps_shape (upstream : Nat → Except String String) :
    (geminiAttempts upstream 3 0 3).2.1 = [] ∨
      (geminiAttempts upstream 3 0 3).2.1 = [waitTime 0] ∨
      (geminiAttempts upstream 3 0 3).2.1 = [waitTime 0, waitTime 1] := by
  rw [show geminiAttempts upstream 3 0 3 = geminiAttempts upstream 3 0 (2 + 1) from rfl,
    geminiAttempts_step]
  cases h0 : upstream 0 with
  | ok t => simp
  | error m0 =>
      cases r0 : retryNeeded m0 with
      | false => simp [r0]
      | true =>
          simp only [r0, Bool.true_and, decide_eq_true_eq]
          rw [if_pos (by norm_num)]
          simp only [List.cons.injEq]
          rw [show geminiAttempts upstream 3 (0 + 1) 2 =
              geminiAttempts upstream 3 1 (1 + 1) from rfl, geminiAttempts_step]
          cases h1 : upstream 1 with
          | ok t => simp
          | error m1 =>
              cases r1 : retryNeeded m1 with
              | false => simp [r1]
              | true =>
                  simp only [r1, Bool.true_and, decide_eq_true_eq]
                  rw [if_pos (by norm_num)]
                  rw [show geminiAttempts upstream 3 (1 + 1) 1 =
                      geminiAttempts upstream 3 2 (0 + 1) from rfl, geminiAttempts_step]
                  cases h2 : upstream 2 with
                  | ok t => simp
                  | error m2 => simp

/-- C4 (amended): `get_ai_response` makes at most 3 upstream attempts;
its backoff sleeps are a prefix of 0.5s, 1s; a non-retryable first error
(error text without "503"/"overloaded") yields the localized fallback
with zero sleeps after a single call; two retryable errors followed by a
success yield the stripped reply after sleeps 0.5s and 1s; three
retryable errors yield the localized fallback after the same two sleeps
and exactly 3 calls.  The fallback is looked up under the requested tag
after "auto" is resolved by the language classifier, defaulting to the
English sentence, and no exception escapes (the model is total). -/
theorem get_ai_response_retry_policy
    (upstream : Nat → Except String String) (prompt language : String)
    (e0 e1 e2 t2 : String) :
    (get_ai_response upstream prompt language).2.2 ≤ 3 ∧
      ((get_ai_response upstream prompt language).2.1 = [] ∨
        (get_ai_response upstream prompt language).2.1 = [waitTime 0] ∨
        (get_ai_response upstream prompt language).2.1 = [waitTime 0, waitTime 1]) ∧
      (upstream 0 = Except.error e0 → retryNeeded e0 = false →
        get_ai_response upstream prompt language =
          (fallbackFor (effLang prompt language), [], 1)) ∧
      (upstream 0 = Except.error e0 → upstream 1 = Except.error e1 →
        upstream 2 = Except.ok t2 →
        retryNeeded e0 = true → retryNeeded e1 = true →
        get_ai_response upstream prompt language =
          (cleanResp t2, [waitTime 0, waitTime 1], 3)) ∧
      (upstream 0 = Except.error e0 → upstream 1 = Except.error e1 →
        upstream 2 = Except.error e2 →
        retryNeeded e0 = true → retryNeeded e1 = true →
        get_ai_response upstream prompt language =
          (fallbackFor (effLang prompt language), [waitTime 0, waitTime 1], 3)) := by
  have hcalls2 : (get_ai_response upstream prompt language).2.2 =
      (geminiAttempts upstream 3 0 3).2.2 := by
    rw [get_ai_response_eq]
    cases h : (geminiAttempts upstream 3 0 3).1 <;> simp [h]
  have hsleeps2 : (get_ai_response upstream prompt language).2.1 =
      (geminiAttempts upstream 3 0 3).2.1 := by
    rw [get_ai_response_eq]
    cases h : (geminiAttempts upstream 3 0 3).1 <;> simp [h]
  refine ⟨?_, ?_, ?_, ?_, ?_⟩
  · rw [hcalls2]; exact geminiAttempts_calls_le upstream 3 3 0
  · rw [hsleeps2]; exact geminiAttempts_sleeps_shape upstream
  · intro h0 hr0
    have hgem : geminiAttempts upstream 3 0 3 = (none, [], 1) := by
      rw [show (3 : Nat) = 2 + 1 from rfl, geminiAttempts_step, h0]
      simp [hr0]
    rw [get_ai_response_eq, hgem]
  · intro h0 h1 h2 hr0 hr1
    have hgem : geminiAttempts upstream 3 0 3 = (some t2, [waitTime 0, waitTime 1], 3) := by
      rw [show (3 : Nat) = 2 + 1 from rfl, geminiAttempts_step, h0]
      rw [show (2 : Nat) = 1 + 1 from rfl, geminiAttempts_step, h1]
      rw [geminiAttempts_step, h2]
      simp [hr0, hr1]
    rw [get_ai_response_eq, hgem]
  · intro h0 h1 h2 hr0 hr1
    have hgem : geminiAttempts upstream 3 0 3 = (none, [waitTime 0, waitTime 1], 3) := by
      rw [show (3 : Nat) = 2 + 1 from rfl, geminiAttempts_step, h0]
      rw [show (2 : Nat) = 1 + 1 from rfl, geminiAttempts_step, h1]
      rw [geminiAttempts_step, h2]
      simp [hr0, hr1]
    rw [get_ai_response_eq, hgem]

/-- Witness for C4: an upstream that fails with an overload error on the
first two calls and succeeds on the third yields the stripped reply
after exactly two backoff sleeps of 0.5s and 1s, and three calls. -/
theorem get_ai_response_retry_policy_witness :
    get_ai_response
        (fun k => if k = 0 then Except.error "503 unavailable"
                  else if k = 1 then Except.error "The model is Overloaded!"
                  else Except.ok "ok *reply*")
        "hello" "en" = ("ok reply", [waitTime 0, waitTime 1], 3) :=
  ((get_ai_response_retry_policy
      (fun k => if k = 0 then Except.error "503 unavailable"
                else if k = 1 then Except.error "The model is Overloaded!"
                else Except.ok "ok *reply*")
      "hello" "en" "503 unavailable" "The model is Overloaded!" "" "ok *reply*"
    ).2.2.2.1 rfl rfl rfl (by decide) (by decide)).trans
    (congrArg (fun s => (s, [waitTime 0, waitTime 1], 3))
      (show cleanResp "ok *reply*" = "ok reply" by decide))

/-- Counterexample to C4 as literally stated: for the requested tag
"auto" — a tag with no configured fallback sentence — and a prompt in
Devanagari script, a non-retryable upstream error yields the Hindi
fallback sentence, not the English one, because the code first resolves
"auto" through the language classifier. -/
theorem get_ai_response_auto_tag_fallback_counterexample :
    (get_ai_response (fun _ => Except.error "bad request") "न" "auto").1 =
        fallbackFor "hi" ∧
      fallbackFor "hi" ≠ fallbackFor "en" := by
  constructor
  · decide
  · decide

/-- The `hindi_phonetic_patterns` list of `transcribe_audio`
(src/app.py:102-106). -/
def hindi_phonetic_patterns : List String :=
  ["kya", "hai", "hoon", "mein", "main", "aap", "tum", "hum",
   "kaise", "kahan", "kab", "kyun", "nahin", "nahi", "thik",
   "accha", "theek", "bahut", "bohot", "kuch", "koi", "yeh", "woh"]

/-- The `bengali_phonetic_patterns` list of `transcribe_audio`
(src/app.py:108-111). -/
def bengali_phonetic_patterns : List String :=
  ["ami", "tumi", "apni", "kemon", "achen", "bhalo", "kharap",
   "ki", "keno", "kothai", "kobe", "ektu", "kichu", "ache", "nai"]

/-- Model of `sum(1 for word in text.lower().split() if any(pattern in
word for pattern in patterns))` (src/app.py:114-115). -/
def patternCount (patterns : List String) (text : String) : Nat :=
  (pyWords (lowerStr text)).countP (fun w => patterns.any (fun p => pyIn p w))

/-- Script presence tests of `transcribe_audio` (src/app.py:99-100);
mirrors the Python truthiness of `text and any(...)`. -/
def hasDevanagari (text : String) : Bool := text ≠ "" && hasRange 0x900 0x97F text

/-- Bengali-script presence test of `transcribe_audio` (src/app.py:100). -/
def hasBengali (text : String) : Bool := text ≠ "" && hasRange 0x980 0x9FF text

/-- Language determination of `transcribe_audio` (src/app.py:118-123):
Bengali script or two Bengali phonetic fragments win first, then
Devanagari script or two Hindi phonetic fragments, else "en". -/
def transcribeDetect (text : String) : String :=
  if hasBengali text || decide (patternCount bengali_phonetic_patterns text ≥ 2) then "bn"
  else if hasDevanagari text || decide (patternCount hindi_phonetic_patterns text ≥ 2) then "hi"
  else "en"

/-- Python truthiness of the `language` argument of `transcribe_audio`:
`not language or language == "auto"` selects auto-detect mode
(src/app.py:128). -/
def autoMode (language : Option String) : Bool :=
  match language with
  | none => true
  | some l => l = "" || l = "auto"

/-- Embedding of the language post-processing of `transcribe_audio`
(src/app.py:59-159).  `upstream k` is the stripped transcript text
returned by the k-th `generate_content` call.  Returns the final text,
the detected language, and the number of upstream transcription calls
made (1, or 2 when the single corrective re-submission fires).  The
corrective pass runs only in auto-detect mode, Hindi branch first. -/
def transcribe_audio (upstream : Nat → String) (language : Option String) :
    String × String × Nat :=
  let text := upstream 0
  let detected := transcribeDetect text
  if autoMode language then
    if decide (patternCount hindi_phonetic_patterns text ≥ 2) && !(hasDevanagari text) then
      (upstream 1, "hi", 2)
    else if decide (patternCount bengali_phonetic_patterns text ≥ 2) && !(hasBengali text) then
      (upstream 1, "bn", 2)
    else (text, detected, 1)
  else (text, detected, 1)

/-- C5 (amended): an explicit forced language other than "auto" (and not
unset/empty) suppresses the corrective re-submission — exactly one
upstream transcription call is made, whose text is returned unchanged —
but the returned language tag is still the one the script/phonetic
heuristics compute from the transcript, which need not equal the forced
language. -/
theorem transcribe_forced_language_single_call
    (upstream : Nat → String) (l : String) (h1 : l ≠ "") (h2 : l ≠ "auto") :
    transcribe_audio upstream (some l) =
      (upstream 0, transcribeDetect (upstream 0), 1) := by
  have hauto : autoMode (some l) = false := by
    simp [autoMode, h1, h2]
  simp [transcribe_audio, hauto]

/-- Witness for C5: forcing "hi" on an upstream that transcribes "hello"
makes a single call and returns the heuristic tag for that text. -/
theorem transcribe_forced_language_single_call_witness :
    transcribe_audio (fun _ => "hello") (some "hi") =
      ("hello", transcribeDetect "hello", 1) :=
  transcribe_forced_language_single_call (fun _ => "hello") "hi"
    (by decide) (by decide)

/-- Counterexample to C5 as literally stated: with the forced language
"hi" and an upstream transcript "hello", the adapter returns the
heuristically detected tag "en", not the forced "hi" — the heuristics do
change the outcome away from the forced language. -/
theorem transcribe_forced_language_heuristic_tag_counterexample :
    (transcribe_audio (fun _ => "hello") (some "hi")).2.1 = "en" ∧
      (transcribe_audio (fun _ => "hello") (some "hi")).2.1 ≠ "hi" := by
  constructor
  · decide
  · decide

/-- Outbound websocket events for one audio unit (src/app.py:920-986).
`response` carries the `crisis` flag (`false` models the normal response
event, whose JSON simply omits the key). -/
inductive Event where
  | transcription (text language : String)
  | response (text : String) (crisis : Bool) (language : String)
  | ttsRequest (text language : String)
  | error (message : String)
deriving DecidableEq

/-- The `crisis_messages` table of the websocket endpoint
(src/app.py:942-952). -/
def crisis_messages : List (String × String) :=
  [("en", "🆘 I\x27m deeply concerned about you. Please reach out for immediate help:\n• National Suicide Prevention Lifeline: 988\n• Crisis Text Line: Text HOME to 741741\nYou matter, and people care about you."),
   ("hi", "🆘 मैं आपके बारे में बहुत चिंतित हूं। कृपया तुरंत मदद लें:\n• राष्ट्रीय आत्महत्या रोकथाम हेल्पलाइन: 9152987821\n• आप महत्वपूर्ण हैं और लोग आपकी परवाह करते हैं।"),
   ("bn", "🆘 আমি আপনার সম্পর্কে গভীরভাবে উদ্বিগ্ন। অনুগ্রহ করে অবিলম্বে সাহায্য নিন:\n• জাতীয় আত্মহত্যা প্রতিরোধ হেল্পলাইন: 9152987821\n• আপনি গুরুত্বপূর্ণ এবং মানুষ আপনার যত্ন নেয়।"),
   ("ta", "🆘 நான் உங்களைப் பற்றி மிகவும் கவலைப்படுகிறேன். உடனடியாக உதவி பெறுங்கள்:\n• தேசிய தற்கொலை தடுப்பு ஹெல்ப்லைன்: 9152987821\n• நீங்கள் முக்கியமானவர், மக்கள் உங்களைக் கவனிக்கிறார்கள்."),
   ("te", "🆘 నేను మీ గురించి చాలా ఆందోళన చెందుతున్నాను। దయచేసి వెంటనే సహాయం తీసుకోండి:\n• జాతీయ ఆత్మహత్య నిరోధక హెల్ప్‌లైన్: 9152987821\n• మీరు ముఖ్యం, ప్రజలు మిమ్మల్ని పట్టించుకుంటారు."),
   ("gu", "🆘 હું તમારા વિશે ખૂબ જ ચિંતિત છું. કૃપા કરીને તાત્કાલિક મદદ લો:\n• રાષ્ટ્રીય આત્મહત્યા નિવારણ હેલ્પલાઇન: 9152987821\n• તમે મહત્વપૂર્ણ છો અને લોકો તમારી કાળજી લે છે."),
   ("kn", "🆘 ನಾನು ನಿಮ್ಮ ಬಗ್ಗೆ ತುಂಬಾ ಕಾಳಜಿ ವಹಿಸುತ್ತಿದ್ದೇನೆ. ದಯವಿಟ್ಟು ತಕ್ಷಣವೇ ಸಹಾಯ ಪಡೆಯಿರಿ:\n• ರಾಷ್ಟ್ರೀಯ ಆತ್ಮಹತ್ಯೆ ತಡೆ ಹೆಲ್ಪ್‌ಲೈನ್: 9152987821\n• ನೀವು ಮುಖ್ಯ, ಜನರು ನಿಮ್ಮ ಕಾಳಜಿ ವಹಿಸುತ್ತಾರೆ."),
   ("ml", "🆘 ഞാൻ നിങ്ങളെക്കുറിച്ച് ആഴത്തിൽ ആശങ്കപ്പെടുന്നു. ദയവായി ഉടനടി സഹായം തേടുക:\n• ദേശീയ ആത്മഹത്യാ തടയൽ ഹെൽപ്ലൈൻ: 9152987821\n• നിങ്ങൾ പ്രധാനമാണ്, ആളുകൾ നിങ്ങളെ പരിപാലിക്കുന്നു."),
   ("pa", "🆘 ਮੈਂ ਤੁਹਾਡੇ ਬਾਰੇ ਬਹੁਤ ਚਿੰਤਤ ਹਾਂ। ਕਿਰਪਾ ਕਰਕੇ ਤੁਰੰਤ ਮਦਦ ਲਓ:\n• ਰਾਸ਼ਟਰੀ ਆਤਮ-ਹੱਤਿਆ ਰੋਕਥਾਮ ਹੈਲਪਲਾਈਨ: 9152987821\n• ਤੁਸੀਂ ਮਹੱਤਵਪੂਰਨ ਹੋ ਅਤੇ ਲੋਕ ਤੁਹਾਡੀ ਪਰਵਾਹ ਕਰਦੇ ਹਨ।")]

/-- Model of `crisis_messages.get(crisis_lang, crisis_messages[en])`
(src/app.py:953). -/
def crisisMessageFor (language : String) : String :=
  ((crisis_messages.find? (fun p => p.1 == language)).map Prod.snd).getD
    (((crisis_messages.find? (fun p => p.1 == "en")).map Prod.snd).getD "")

/-- Embedding of the per-unit event sequence of the websocket endpoint
after transcription (src/app.py:920-986).  `text` and `lang` are the
transcription result; `ai` is the reply text produced by the
`get_ai_response` call (or its defensive fallback).  Empty text yields
the single "No speech detected" error event and the loop `continue`s;
otherwise a transcription event, a crisis response event when flagged,
the normal response event, and the TTS-request event are sent. -/
def processAudioEvents (text lang ai : String) : List Event :=
  if text = "" then [Event.error "No speech detected"]
  else
    [Event.transcription text lang]
    ++ (if (detect_crisis_keywords text).1 then
          [Event.response (crisisMessageFor (detect_crisis_keywords text).2) true
            (detect_crisis_keywords text).2]
        else [])
    ++ [Event.response ai false lang, Event.ttsRequest ai lang]

/-- C3: a non-empty transcription flagged by the crisis detector yields
exactly four events, in order: the transcription event, the crisis
response event carrying the localized urgent-resources message, the
normal response event, and the TTS-request event; the crisis flag never
suppresses the normal reply. -/
theorem websocket_crisis_unit_emits_four_events
    (text lang ai : String) (h1 : text ≠ "")
    (h2 : (detect_crisis_keywords text).1 = true) :
    processAudioEvents text lang ai =
      [Event.transcription text lang,
       Event.response (crisisMessageFor (detect_crisis_keywords text).2) true
         (detect_crisis_keywords text).2,
       Event.response ai false lang,
       Event.ttsRequest ai lang] := by
  simp [processAudioEvents, h1, h2]

/-- Witness for C3 on the crisis transcription "suicide". -/
theorem websocket_crisis_unit_emits_four_events_witness :
    processAudioEvents "suicide" "en" "stay with me" =
      [Event.transcription "suicide" "en",
       Event.response (crisisMessageFor (detect_crisis_keywords "suicide").2) true
         (detect_crisis_keywords "suicide").2,
       Event.response "stay with me" false "en",
       Event.ttsRequest "stay with me" "en"] :=
  websocket_crisis_unit_emits_four_events "suicide" "en" "stay with me"
    (by decide) (by decide)

/-- C6: an audio unit whose transcription is the empty string yields
exactly one error event with message "No speech detected" and no
transcription, response or TTS-request events; the handler returns
normally, so the connection loop continues with the next unit. -/
theorem websocket_empty_transcription_single_error_event
    (lang ai : String) :
    processAudioEvents "" lang ai = [Event.error "No speech detected"] := by
  simp [processAudioEvents]

/-- Temporary-file lifecycle of `transcribe_audio` (src/app.py:65-167):
a temporary WAV container is created; whatever the upload
(`genai.upload_file`) and the model calls do, control reaches the
`finally` block, which removes the file.  The result is the set of
temporary files of this call remaining on disk. -/
def transcribeTempFiles (_uploadOk _modelOk : Bool) : List String :=
  let fs : List String := ["transcribe_tmp_wav"]
  -- try: upload_file / generate_content … except: return ("", "en") —
  -- on every one of these paths the finally block runs:
  -- `if os.path.exists(tmp_path): os.remove(tmp_path)`
  fs.filter (fun f => f ≠ "transcribe_tmp_wav")

/-- Temporary-file lifecycle of one audio unit of the websocket endpoint
(src/app.py:887-918).  Returns the unit's temporary files remaining on
disk after the unit is processed.  Base64 decoding happens before any
file is created; the two `os.remove` calls are written after the ffmpeg
conversion and the `librosa.load`, inside a `try/except` that only
swallows removal errors — when ffmpeg (`subprocess.run(..., check=True)`)
or the load raises, control jumps to the unit-boundary `except` handler
and the removes are never reached. -/
def websocketAudioTempFiles (decodeOk ffmpegOk loadOk : Bool) : List String :=
  if decodeOk = false then []
  else
    -- tempfile.NamedTemporaryFile(suffix=f".{audio_format}", delete=False)
    let fs : List String := ["tmp_in_path"]
    -- tempfile.NamedTemporaryFile(suffix=".wav", delete=False).name
    let fs := fs ++ ["tmp_wav"]
    if ffmpegOk = false then fs
    else if loadOk = false then fs
    else (fs.filter (fun f => f ≠ "tmp_in_path")).filter (fun f => f ≠ "tmp_wav")

/-- C8 (code bug): the transcription adapter does release its temporary
WAV container on every exit path, and the orchestrator deletes both of
its temporary files on the success path — but when the ffmpeg conversion
(or the subsequent WAV load) fails, the orchestrator's `os.remove` calls
are never reached and both temporary files remain on disk, contradicting
the claimed unconditional cleanup. -/
theorem websocket_tempfile_leak_on_ffmpeg_failure :
    websocketAudioTempFiles true false true = ["tmp_in_path", "tmp_wav"] ∧
      websocketAudioTempFiles true true false = ["tmp_in_path", "tmp_wav"] ∧
      websocketAudioTempFiles true true true = [] ∧
      websocketAudioTempFiles false true true = [] ∧
      transcribeTempFiles true true = [] ∧
      transcribeTempFiles true false = [] ∧
      transcribeTempFiles false true = [] ∧
      transcribeTempFiles false false = [] := by
  decide

/-- The `lang_map` table of the `/tts` endpoint `text_to_speech`
(src/app.py:1018-1037), in Python dict insertion order. -/
def lang_map : List (String × String) :=
  [("en", "en"), ("hi", "hi"), ("hi-IN", "hi"), ("bn", "bn"), ("bn-IN", "bn"),
   ("ta", "ta"), ("ta-IN", "ta"), ("te", "te"), ("te-IN", "te"),
   ("gu", "gu"), ("gu-IN", "gu"), ("kn", "kn"), ("kn-IN", "kn"),
   ("ml", "ml"), ("ml-IN", "ml"), ("pa", "pa"), ("pa-IN", "pa"),
   ("auto", "en")]

/-- Model of `lang_map.get(language, "en")` in `text_to_speech`
(src/app.py:1038): the backend code used for speech synthesis. -/
def ttsLang (language : String) : String :=
  ((lang_map.find? (fun p => p.1 == language)).map Prod.snd).getD "en"

lemma ttsLang_default (s : String) (hs : s ∉ lang_map.map Prod.fst) :
    ttsLang s = "en" := by
  have hnone : lang_map.find? (fun p => p.1 == s) = none := by
    refine List.find?_eq_none.mpr (fun p hp => ?_)
    intro hb
    exact hs (List.mem_map.mpr ⟨p, hp, by simpa using hb⟩)
  simp [ttsLang, hnone]

/-- C9: the tag-to-backend-code mapping of the synthesis endpoint is
total and never errors: each supported tag and its regional "-IN"
variant resolve to the tag's own code, while "auto" and every
unrecognized tag resolve to the base code "en". -/
theorem tts_lang_map_resolution (l s : String)
    (hl : l ∈ (["en", "hi", "bn", "ta", "te", "gu", "kn", "ml", "pa"] : List String))
    (hs : s ∉ lang_map.map Prod.fst) :
    ttsLang l = l ∧ ttsLang (l ++ "-IN") = l ∧ ttsLang "auto" = "en" ∧
      ttsLang s = "en" := by
  refine ⟨?_, ?_, by decide, ttsLang_default s hs⟩
  · fin_cases hl <;> decide
  · fin_cases hl <;> decide

/-- Witness for C9 with the supported tag "hi" and the unrecognized tag
"fr". -/
theorem tts_lang_map_resolution_witness :
    ttsLang "hi" = "hi" ∧ ttsLang ("hi" ++ "-IN") = "hi" ∧
      ttsLang "auto" = "en" ∧ ttsLang "fr" = "en" :=
  tts_lang_map_resolution "hi" "fr" (by decide) (by decide)

end App
